import Mathlib

/-!
Verification of the Czech long-term visa/permit checker
(`bulldozer_pro.py` and `github_runner.py`).

The two source modules encode one engine.  This file gives a shallow
embedding of its algorithmic core:

* the status classifier of `check_application_status` (ordered substring
  matching over the page response text),
* the identifier codec implicit in `run_part2`
  (`f"{city}{date:%Y%m%d}{idx:04d}"` and the slicing `[:4]`, `[4:12]`,
  `[12:16]`),
* the `check_with_retry` policy around the check state machine,
* the Supabase retry wrapper `supabase_request_with_retry`,
* `application_exists`,
* the per-record body and loop of `run_part1` (backlog poller), with an
  explicit fault channel mirroring Python exception propagation,
* the per-date discovery loop of `run_part2` (discovery scanner).

External effects (the Selenium page session, the HTTP transport) appear as
oracle parameters: a function giving the outcome of each interaction.
-/

namespace CzechVisa

/-- Status outcomes of one application check, as the string constants used
throughout both source files.  `RETRY` and `ERROR` are the two
process-local transient tags; only the first five values are persisted. -/
inductive Status where
  | APPROVED
  | REJECTED
  | BEING_PROCESSED
  | NOT_FOUND
  | UNKNOWN
  | RETRY
  | ERROR
  deriving DecidableEq, Repr

/-- Decidable equality for `Except`, needed to `decide` facts about
results carrying a fault channel. -/
instance {ε α : Type} [DecidableEq ε] [DecidableEq α] : DecidableEq (Except ε α) := fun a b =>
  match a, b with
  | .ok x, .ok y =>
    if h : x = y then .isTrue (by rw [h]) else .isFalse (fun hh => by cases hh; exact h rfl)
  | .error x, .error y =>
    if h : x = y then .isTrue (by rw [h]) else .isFalse (fun hh => by cases hh; exact h rfl)
  | .ok _, .error _ => .isFalse (fun hh => by cases hh)
  | .error _, .ok _ => .isFalse (fun hh => by cases hh)

/-- Python's substring test `pat in t` on the response text, over lists of
characters. -/
def hasSub (pat : List Char) : List Char → Bool
  | [] => pat.isEmpty
  | c :: rest => pat.isPrefixOf (c :: rest) || hasSub pat rest

/-- Phrase for `APPROVED` (source line `if "preliminarily assessed
positively" in result_text`). -/
def approvedPhrase : List Char := "preliminarily assessed positively".toList

/-- Phrase for `REJECTED`. -/
def rejectedPhrase : List Char := "was rejected".toList

/-- Phrase for `BEING_PROCESSED`. -/
def processedPhrase : List Char := "being processed".toList

/-- First phrase of the `NOT_FOUND` group. -/
def notFoundPhraseA : List Char := "was not found".toList

/-- Second phrase of the `NOT_FOUND` group. -/
def notFoundPhraseB : List Char := "no application".toList

/-- Third phrase of the `NOT_FOUND` group. -/
def notFoundPhraseC : List Char := "not found".toList

/-- The status classifier: the `if`/`elif` chain at the end of
`check_application_status` (bulldozer_pro.py lines 283-292,
github_runner.py lines 199-208), applied to the page response text
(the source lowercases the text before matching; `t` is that text). -/
def classify (t : List Char) : Status :=
  if hasSub approvedPhrase t then .APPROVED
  else if hasSub rejectedPhrase t then .REJECTED
  else if hasSub processedPhrase t then .BEING_PROCESSED
  else if hasSub notFoundPhraseA t || hasSub notFoundPhraseB t || hasSub notFoundPhraseC t then
    .NOT_FOUND
  else .UNKNOWN

/-- Modelled from the spec: the classifier as "ordered substring matching"
over phrase groups in fixed priority, returning on the first group with a
matching phrase, else `UNKNOWN` (spec section 4.2).  Used to compare the
source classifier against the spec's formulation. -/
def phraseGroups : List (List (List Char) × Status) :=
  [([approvedPhrase], .APPROVED),
   ([rejectedPhrase], .REJECTED),
   ([processedPhrase], .BEING_PROCESSED),
   ([notFoundPhraseA, notFoundPhraseB, notFoundPhraseC], .NOT_FOUND)]

/-- Modelled from the spec: return the outcome of the first matching phrase
group, else `UNKNOWN`. -/
def classifySpec (t : List Char) : Status :=
  match phraseGroups.find? (fun g => g.1.any (fun p => hasSub p t)) with
  | some g => g.2
  | none => .UNKNOWN

/-! ## Identifier codec

`run_part2` builds a candidate identifier with
`f"{city}{current_date.strftime('%Y%m%d')}{idx:04d}"` and, on a hit,
decodes it back with `app_number[:4]` (city) and `app_number[4:12]`
(submit date); the last four characters `[12:16]` hold the sequence. -/

/-- The decimal digit character for `n % 10`, as produced by Python's
zero-padded `%`-formatting. -/
def digitChar (n : Nat) : Char := Char.ofNat (48 + n % 10)

/-- Numeric value of a decimal digit character. -/
def charVal (c : Char) : Nat := c.toNat - 48

/-- Python's zero-padded decimal formatting to a fixed width `w`
(`f"{n:04d}"`, `strftime` fields `%Y`, `%m`, `%d`), for `n < 10 ^ w`. -/
def padNum : Nat → Nat → List Char
  | 0, _ => []
  | w + 1, n => padNum w (n / 10) ++ [digitChar n]

/-- Value of a decimal digit string, most significant digit first. -/
def digitsVal (cs : List Char) : Nat :=
  cs.foldl (fun a c => a * 10 + charVal c) 0

/-- The candidate identifier built by `run_part2`:
`f"{city}{current_date.strftime('%Y%m%d')}{idx:04d}"`, with the date split
into its year, month and day components. -/
def appNumber (city : List Char) (y m d seq : Nat) : List Char :=
  city ++ padNum 4 y ++ padNum 2 m ++ padNum 2 d ++ padNum 4 seq

/-- Decoder slice `app_number[:4]`: the city prefix. -/
def decodeCity (s : List Char) : List Char := s.take 4

/-- Decoder slice `app_number[4:12]`: the 8-character `YYYYMMDD` date
field. -/
def decodeDateField (s : List Char) : List Char := (s.drop 4).take 8

/-- Year component of the decoded date field (`app_number[4:8]`). -/
def decodeYear (s : List Char) : Nat := digitsVal ((s.drop 4).take 4)

/-- Month component of the decoded date field (`app_number[8:10]`). -/
def decodeMonth (s : List Char) : Nat := digitsVal ((s.drop 8).take 2)

/-- Day component of the decoded date field (`app_number[10:12]`). -/
def decodeDay (s : List Char) : Nat := digitsVal ((s.drop 10).take 2)

/-- Sequence component `app_number[12:16]`. -/
def decodeSeq (s : List Char) : Nat := digitsVal ((s.drop 12).take 4)

/-! ## Record store lookup -/

/-- One row of the `applications` collection as read back by
`application_exists` (only the `status` field is consumed; the `id` field
is carried for clarity). -/
structure AppRow where
  id : List Char
  status : Status
  deriving DecidableEq, Repr

/-- `application_exists` (bulldozer_pro.py lines 148-156, github_runner.py
lines 91-99), parameterized by the outcome of its `supabase_select` call:
`.ok rows` when the select returns, `.error e` when it raises.  Any
exception is swallowed and reported as `(False, None)`; otherwise it
returns `(len(result) > 0, result[0]["status"] if exists else None)`. -/
def application_exists (res : Except (List Char) (List AppRow)) : Bool × Option Status :=
  match res with
  | .error _ => (false, none)
  | .ok [] => (false, none)
  | .ok (r :: _) => (true, some r.status)

/-! ## Check retry policy (`check_with_retry`) -/

/-- Result of `check_with_retry` together with its observable effects:
`attempts` counts invocations of `check_application_status` (the check
state machine); `resets` counts the `init_page` reset-and-pause performed
in the `RETRY` branch. -/
structure CheckRetryResult where
  result : Status
  attempts : Nat
  resets : Nat
  deriving DecidableEq, Repr

/-- The loop of `check_with_retry` (bulldozer_pro.py lines 299-308,
github_runner.py lines 221-229): `csm i` is the outcome of the `i`-th
invocation of `check_application_status`; `fuel` is the number of
remaining loop iterations (`max_retries - i`). -/
def cwrGo (csm : Nat → Status) : Nat → Nat → Nat → CheckRetryResult
  | i, 0, resets => ⟨.ERROR, i, resets⟩
  | i, fuel + 1, resets =>
    if csm i = .RETRY then cwrGo csm (i + 1) fuel (resets + 1)
    else ⟨csm i, i + 1, resets⟩

/-- `check_with_retry` with its source default `max_retries=2`. -/
def check_with_retry (csm : Nat → Status) : CheckRetryResult :=
  cwrGo csm 0 2 0

/-! ## Supabase retry wrapper (`supabase_request_with_retry`) -/

/-- `MAX_API_RETRIES` (bulldozer_pro.py line 26). -/
def MAX_API_RETRIES : Nat := 3

/-- `API_RETRY_DELAY` in seconds (bulldozer_pro.py line 27). -/
def API_RETRY_DELAY : Nat := 5

/-- `RETRYABLE_STATUS_CODES` (bulldozer_pro.py line 28). -/
def RETRYABLE_STATUS_CODES : List Nat := [502, 503, 504, 429]

/-- Outcome of one HTTP request attempt: a response with its status code,
or a raised connection/timeout exception (tagged so distinct exception
objects stay distinguishable). -/
inductive ReqResult where
  | resp (code : Nat)
  | connError (tag : Nat)
  | timeoutError (tag : Nat)
  deriving DecidableEq, Repr

/-- A fault raised by the wrapper: an HTTP error from
`raise_for_status()`, a re-raised connection/timeout exception, or the
fresh `HTTPError("Max retries ... exhausted")` built after the loop. -/
inductive Fault where
  | httpStatus (code : Nat)
  | connError (tag : Nat)
  | timeoutError (tag : Nat)
  | maxRetriesExhausted
  deriving DecidableEq, Repr

/-- The fault corresponding to what one attempt observed. -/
def faultOf : ReqResult → Fault
  | .resp code => .httpStatus code
  | .connError t => .connError t
  | .timeoutError t => .timeoutError t

/-- Result of the wrapper together with its observable effects: `attempts`
counts HTTP requests issued; `delays` lists the `time.sleep` durations
(`API_RETRY_DELAY * (attempt + 1)`) in order. -/
structure RetryOutcome where
  result : Except Fault Nat
  attempts : Nat
  delays : List Nat
  deriving DecidableEq, Repr

/-- The loop of `supabase_request_with_retry` (bulldozer_pro.py lines
61-110).  `req i` is the outcome of the `i`-th HTTP attempt; `fuel` is
`max_retries - i`; `last` is Python's `last_exception`.  A retryable
status code sleeps and continues without recording an exception; a
connection/timeout exception is recorded and retried; `raise_for_status`
on a non-retryable 4xx/5xx raises immediately (the `except HTTPError:
raise` branch); a sub-400 code is returned.  After the loop the recorded
exception is re-raised if any, else a fresh exhaustion `HTTPError` is
raised. -/
def srwGo (req : Nat → ReqResult) : Nat → Nat → Option Fault → List Nat → RetryOutcome
  | i, 0, last, delays =>
    match last with
    | some e => ⟨.error e, i, delays⟩
    | none => ⟨.error .maxRetriesExhausted, i, delays⟩
  | i, fuel + 1, last, delays =>
    match req i with
    | .resp code =>
      if code ∈ RETRYABLE_STATUS_CODES then
        srwGo req (i + 1) fuel last (delays ++ [API_RETRY_DELAY * (i + 1)])
      else if 400 ≤ code ∧ code < 600 then ⟨.error (.httpStatus code), i + 1, delays⟩
      else ⟨.ok code, i + 1, delays⟩
    | .connError t =>
      srwGo req (i + 1) fuel (some (.connError t)) (delays ++ [API_RETRY_DELAY * (i + 1)])
    | .timeoutError t =>
      srwGo req (i + 1) fuel (some (.timeoutError t)) (delays ++ [API_RETRY_DELAY * (i + 1)])

/-- `supabase_request_with_retry` with its default `max_retries =
MAX_API_RETRIES`. -/
def supabase_request_with_retry (req : Nat → ReqResult) : RetryOutcome :=
  srwGo req 0 MAX_API_RETRIES none []

/-- Python's `last_exception` after the first `n` attempts: the most
recent connection/timeout exception, if any. -/
def lastRecordedExc (req : Nat → ReqResult) : Nat → Option Fault
  | 0 => none
  | n + 1 =>
    match req n with
    | .connError t => some (.connError t)
    | .timeoutError t => some (.timeoutError t)
    | .resp _ => lastRecordedExc req n

/-- A request attempt outcome the wrapper treats as retryable: a response
with a code in `RETRYABLE_STATUS_CODES`, a connection error, or a
timeout. -/
def isRetryableOutcome : ReqResult → Bool
  | .resp code => decide (code ∈ RETRYABLE_STATUS_CODES)
  | .connError _ => true
  | .timeoutError _ => true

/-! ## Backlog poller (`run_part1`)

The per-record body of `run_part1` (bulldozer_pro.py lines 337-371,
github_runner.py lines 254-288).  Store effects are recorded as a list of
operations; the `supabase_update` calls sit in no `try` block inside the
loop, so a fault they raise is carried on an explicit fault channel that
aborts the fold, exactly as a Python exception would abort the `for`
loop.  `supabase_insert` catches its own exceptions and only reports a
boolean, so it has no fault channel. -/

/-- A `ChangeEvent` row inserted into the `changes` collection. -/
structure ChangeEvent where
  application_id : List Char
  old_status : Option Status
  new_status : Status
  changed_at : List Char
  is_read : Bool
  deriving DecidableEq, Repr

/-- A successful store mutation performed by `run_part1`:
`updateApp id st now` is the `supabase_update` on `applications` patching
`last_checked` to `now` and, when `st = some s`, also `status` to `s`;
`insertChange ev` is the `supabase_insert` into `changes`. -/
inductive StoreOp where
  | updateApp (id : List Char) (newStatus : Option Status) (lastChecked : List Char)
  | insertChange (ev : ChangeEvent)
  deriving DecidableEq, Repr

/-- Whether a store operation is a `changes` insert. -/
def StoreOp.isChangeInsert : StoreOp → Bool
  | .insertChange _ => true
  | .updateApp _ _ _ => false

/-- The body of `run_part1`'s loop for one record.  `updFault` is the
fault (if any) an update call on this record raises; `insOk` is whether
the `changes` insert succeeds; `old` is the record's stored status; `new`
is the outcome of `check_with_retry`; `now` the timestamp.  Returns the
successful store operations in order, and the raised fault if the
iteration aborted. -/
def part1Item (updFault : Option (List Char)) (insOk : Bool) (id : List Char)
    (old new : Status) (now : List Char) : List StoreOp × Option (List Char) :=
  if new ∈ [Status.APPROVED, Status.REJECTED] then
    match updFault with
    | some e => ([], some e)
    | none =>
      if insOk then
        ([.updateApp id (some new) now,
          .insertChange ⟨id, some old, new, now, false⟩], none)
      else ([.updateApp id (some new) now], none)
  else if new = Status.BEING_PROCESSED then
    match updFault with
    | some e => ([], some e)
    | none => ([.updateApp id none now], none)
  else if new = Status.NOT_FOUND then
    match updFault with
    | some e => ([], some e)
    | none => ([.updateApp id none now], none)
  else ([], none)

/-- The loop of `run_part1` over the selected `BEING_PROCESSED` records.
`check id` is the outcome of `check_with_retry` for `id`; `updFault` and
`insOk` are the store oracles, keyed by record id.  A fault raised inside
an iteration propagates: the remaining records are not processed and the
fault escapes the loop (to `main`, which exits). -/
def runPart1 (updFault : List Char → Option (List Char)) (insOk : List Char → Bool)
    (check : List Char → Status) (now : List Char) :
    List (List Char × Status) → List StoreOp × Option (List Char)
  | [] => ([], none)
  | (id, old) :: rest =>
    let r := part1Item (updFault id) (insOk id) id old (check id) now
    match r.2 with
    | some e => (r.1, some e)
    | none =>
      let rr := runPart1 updFault insOk check now rest
      (r.1 ++ rr.1, rr.2)

/-! ## Discovery scanner (`run_part2`)

The per-date inner loop of `run_part2` (bulldozer_pro.py lines 414-466,
github_runner.py lines 329-384).  `cand i` is the candidate identifier
for sequence number `i` (in the source, `appNumber city y m d i` with the
city and date fixed for the whole loop); `db a` is the outcome of the
`supabase_select` inside `application_exists` for identifier `a`; `csm a`
is the outcome of `check_with_retry` for `a`.  The state records every
identifier actually submitted to a check plus the rows inserted on hits;
the inserted `applications` row's `city` and `submit_date` fields are the
decoded slices `decodeCity a` / `decodeDateField a` of the identifier and
are elided here along with the timestamp. -/

/-- `MAX_NOT_FOUND_CONSECUTIVE` (line 22 of both files). -/
def MAX_NOT_FOUND_CONSECUTIVE : Nat := 8

/-- State of the per-date discovery loop: `idx` is the next sequence
number; `misses` is `consecutive_not_found`; `checks` lists the
identifiers submitted to `check_with_retry`, in order; `appInserts` and
`changeInserts` list the `(identifier, status)` rows inserted into
`applications` and `changes` on hits. -/
structure ScanState where
  idx : Nat
  misses : Nat
  checks : List (List Char)
  appInserts : List (List Char × Status)
  changeInserts : List (List Char × Status)
  deriving DecidableEq, Repr

/-- Initial per-date state: `consecutive_not_found = 0`, `idx = 1`. -/
def initScan : ScanState :=
  ⟨1, 0, [], [], []⟩

/-- One iteration of the per-date loop body.  If the identifier is already
in the store, skip the check, reset the miss counter and advance; else
check it: a hit (`APPROVED`/`REJECTED`/`BEING_PROCESSED`) inserts the two
rows and resets the miss counter, `NOT_FOUND` increments it, and so does
any other outcome (`UNKNOWN`/`ERROR`). -/
def scanStep (db : List Char → Except (List Char) (List AppRow))
    (csm : List Char → Status) (cand : Nat → List Char) (s : ScanState) : ScanState :=
  let a := cand s.idx
  if (application_exists (db a)).1 then
    { s with idx := s.idx + 1, misses := 0 }
  else
    let st := csm a
    if st ∈ [Status.APPROVED, Status.REJECTED, Status.BEING_PROCESSED] then
      { idx := s.idx + 1, misses := 0,
        checks := s.checks ++ [a],
        appInserts := s.appInserts ++ [(a, st)],
        changeInserts := s.changeInserts ++ [(a, st)] }
    else if st = Status.NOT_FOUND then
      { s with idx := s.idx + 1, misses := s.misses + 1, checks := s.checks ++ [a] }
    else
      { s with idx := s.idx + 1, misses := s.misses + 1, checks := s.checks ++ [a] }

/-- The per-date loop `while consecutive_not_found <
MAX_NOT_FOUND_CONSECUTIVE`, with an explicit fuel bound on the number of
iterations (the source loop is unbounded; every theorem below supplies
enough fuel for the run it describes). -/
def scanLoop (db : List Char → Except (List Char) (List AppRow))
    (csm : List Char → Status) (cand : Nat → List Char) : ScanState → Nat → ScanState
  | s, 0 => s
  | s, fuel + 1 =>
    if s.misses < MAX_NOT_FOUND_CONSECUTIVE then
      scanLoop db csm cand (scanStep db csm cand s) fuel
    else s

/-! ## Theorems: status classifier -/

/-- The source `if`/`elif` chain realizes the spec's first-matching-group
formulation. -/
theorem classify_eq_classifySpec (t : List Char) : classify t = classifySpec t := by
  unfold classify classifySpec phraseGroups
  cases h1 : hasSub approvedPhrase t <;>
    cases h2 : hasSub rejectedPhrase t <;>
      cases h3 : hasSub processedPhrase t <;>
        cases h4 : hasSub notFoundPhraseA t <;>
          cases h5 : hasSub notFoundPhraseB t <;>
            cases h6 : hasSub notFoundPhraseC t <;>
              simp [h1, h2, h3, h4, h5, h6, List.find?]

/-- Claim C1 (counterexample): a text containing both "was rejected" and
"being processed" as substrings on which the classifier does not return
`REJECTED` — the text also contains the higher-priority phrase
"preliminarily assessed positively", so it classifies as `APPROVED`. -/
theorem classify_rejected_counterexample :
    hasSub rejectedPhrase
        "preliminarily assessed positively was rejected being processed".toList = true ∧
    hasSub processedPhrase
        "preliminarily assessed positively was rejected being processed".toList = true ∧
    classify "preliminarily assessed positively was rejected being processed".toList =
        Status.APPROVED ∧
    classify "preliminarily assessed positively was rejected being processed".toList ≠
        Status.REJECTED := by
  decide

/-- Claim C1 (amended): the classifier returns the outcome of the first
matching phrase group in the fixed priority order (formalized as
agreement with the spec-modelled `classifySpec`); in particular, any text
containing both "was rejected" and "being processed" but not the
higher-priority "preliminarily assessed positively" classifies as
`REJECTED`, and any text containing "was rejected" never classifies as
`BEING_PROCESSED`. -/
theorem classify_priority_order (t : List Char) :
    classify t = classifySpec t ∧
    (hasSub rejectedPhrase t = true →
      ((hasSub processedPhrase t = true → hasSub approvedPhrase t = false →
          classify t = Status.REJECTED) ∧
        classify t ≠ Status.BEING_PROCESSED)) := by
  refine ⟨classify_eq_classifySpec t, fun hr => ⟨fun hp ha => ?_, ?_⟩⟩
  · simp [classify, ha, hr]
  · cases h1 : hasSub approvedPhrase t
    · simp [classify, h1, hr]
    · simp [classify, h1]

/-- Witness for C1 (amended) at a concrete text containing "was rejected"
and "being processed" but not the approved phrase. -/
theorem classify_priority_order_witness :
    classify "it was rejected while being processed".toList = Status.REJECTED ∧
    classify "it was rejected while being processed".toList ≠ Status.BEING_PROCESSED := by
  have h := (classify_priority_order "it was rejected while being processed".toList).2
    (by decide)
  exact ⟨h.1 (by decide) (by decide), h.2⟩

/-- Claim C9: the classifier is total — it is a total function of the
text, and any text containing none of the four phrase groups classifies
as `UNKNOWN`. -/
theorem classify_unknown_total (t : List Char)
    (h1 : hasSub approvedPhrase t = false) (h2 : hasSub rejectedPhrase t = false)
    (h3 : hasSub processedPhrase t = false) (h4 : hasSub notFoundPhraseA t = false)
    (h5 : hasSub notFoundPhraseB t = false) (h6 : hasSub notFoundPhraseC t = false) :
    classify t = Status.UNKNOWN := by
  simp [classify, h1, h2, h3, h4, h5, h6]

/-- Witness for C9 at a concrete phrase-free text. -/
theorem classify_unknown_total_witness :
    classify "status page under maintenance".toList = Status.UNKNOWN :=
  classify_unknown_total _ (by decide) (by decide) (by decide) (by decide) (by decide)
    (by decide)

/-! ## Theorems: check retry policy -/

/-- Claim C6: `check_with_retry` invokes the check state machine at most
twice; any non-`RETRY` attempt outcome is returned unchanged; each `RETRY`
triggers one page reset (with its pause) before the next attempt; two
`RETRY` outcomes yield `ERROR`; and the policy never returns `RETRY`. -/
theorem check_with_retry_policy (csm : Nat → Status) :
    (check_with_retry csm).attempts ≤ 2 ∧
    (check_with_retry csm).result ≠ Status.RETRY ∧
    (csm 0 ≠ Status.RETRY → check_with_retry csm = ⟨csm 0, 1, 0⟩) ∧
    (csm 0 = Status.RETRY → csm 1 ≠ Status.RETRY → check_with_retry csm = ⟨csm 1, 2, 1⟩) ∧
    (csm 0 = Status.RETRY → csm 1 = Status.RETRY →
      check_with_retry csm = ⟨Status.ERROR, 2, 2⟩) := by
  by_cases h0 : csm 0 = Status.RETRY <;> by_cases h1 : csm 1 = Status.RETRY <;>
    simp [check_with_retry, cwrGo, h0, h1]

/-- Witness for C6 at the oracle whose every attempt yields `RETRY`. -/
theorem check_with_retry_policy_witness :
    check_with_retry (fun _ => Status.RETRY) = ⟨Status.ERROR, 2, 2⟩ :=
  (check_with_retry_policy (fun _ => Status.RETRY)).2.2.2.2 rfl rfl

/-! ## Theorems: Supabase retry wrapper -/

/-- Claim C5 (counterexample): a run whose every attempt yields a
retryable fault (a connection error, then two 503 responses) after which
the wrapper raises the connection error recorded on attempt 0 — not the
last observed fault, which is the HTTP 503 of attempt 2. -/
theorem retry_wrapper_counterexample :
    (∀ i, i < MAX_API_RETRIES →
      isRetryableOutcome
        ((fun j => if j = 0 then ReqResult.connError 0 else ReqResult.resp 503) i) = true) ∧
    supabase_request_with_retry
        (fun j => if j = 0 then ReqResult.connError 0 else ReqResult.resp 503) =
      ⟨.error (Fault.connError 0), 3, [5, 10, 15]⟩ ∧
    faultOf ((fun j => if j = 0 then ReqResult.connError 0 else ReqResult.resp 503)
        (MAX_API_RETRIES - 1)) = Fault.httpStatus 503 ∧
    Fault.connError 0 ≠ Fault.httpStatus 503 := by
  decide

/-- Claim C5 (amended): on a call whose every attempt yields a retryable
fault, the wrapper performs exactly `MAX_API_RETRIES = 3` attempts with
strictly increasing delays `API_RETRY_DELAY * attemptNumber = [5, 10,
15]`, then raises the most recently recorded connection/timeout exception
if one occurred, else a fresh retries-exhausted HTTP error; a
non-retryable HTTP error status is raised immediately without further
attempts. -/
theorem retry_wrapper_bound (req : Nat → ReqResult)
    (h : ∀ i, i < MAX_API_RETRIES → isRetryableOutcome (req i) = true) :
    supabase_request_with_retry req =
      ⟨.error ((lastRecordedExc req MAX_API_RETRIES).getD Fault.maxRetriesExhausted),
        3, [5, 10, 15]⟩ ∧
    (∀ code, 400 ≤ code → code < 600 → code ∉ RETRYABLE_STATUS_CODES →
      ∀ req2 : Nat → ReqResult, req2 0 = ReqResult.resp code →
        supabase_request_with_retry req2 = ⟨.error (Fault.httpStatus code), 1, []⟩) := by
  constructor
  · have h0 := h 0 (by decide)
    have h1 := h 1 (by decide)
    have h2 := h 2 (by decide)
    rcases hq0 : req 0 with c0 | t0 | t0 <;> rcases hq1 : req 1 with c1 | t1 | t1 <;>
      rcases hq2 : req 2 with c2 | t2 | t2 <;>
        simp_all [supabase_request_with_retry, MAX_API_RETRIES, srwGo, isRetryableOutcome,
          lastRecordedExc, API_RETRY_DELAY]
  · intro code hge hlt hnot req2 hq
    simp [supabase_request_with_retry, MAX_API_RETRIES, srwGo, hq, hnot, hge, hlt]

/-- Witness for C5 (amended) at the oracle answering 503 on every
attempt: no connection/timeout exception was recorded, so the wrapper
raises the fresh retries-exhausted error after three increasing delays. -/
theorem retry_wrapper_bound_witness :
    supabase_request_with_retry (fun _ => ReqResult.resp 503) =
      ⟨.error Fault.maxRetriesExhausted, 3, [5, 10, 15]⟩ :=
  (retry_wrapper_bound (fun _ => ReqResult.resp 503) (by decide)).1

/-! ## Theorems: backlog poller -/

/-- Claim C4: for a record stored as `BEING_PROCESSED` whose check
classifies as `APPROVED` (store calls succeeding), the poller performs the
status-and-timestamp update followed by the insert of exactly one
`ChangeEvent` with `old_status = BEING_PROCESSED`, `new_status =
APPROVED`, in that order. -/
theorem part1_transition (id now : List Char) (check : List Char → Status)
    (hc : check id = Status.APPROVED) :
    runPart1 (fun _ => none) (fun _ => true) check now [(id, Status.BEING_PROCESSED)] =
      ([StoreOp.updateApp id (some Status.APPROVED) now,
        StoreOp.insertChange ⟨id, some Status.BEING_PROCESSED, Status.APPROVED, now, false⟩],
        none) ∧
    ((runPart1 (fun _ => none) (fun _ => true) check now
        [(id, Status.BEING_PROCESSED)]).1.filter StoreOp.isChangeInsert).length = 1 := by
  have h :
      runPart1 (fun _ => none) (fun _ => true) check now [(id, Status.BEING_PROCESSED)] =
        ([StoreOp.updateApp id (some Status.APPROVED) now,
          StoreOp.insertChange
            ⟨id, some Status.BEING_PROCESSED, Status.APPROVED, now, false⟩], none) := by
    simp [runPart1, part1Item, hc]
  exact ⟨h, by rw [h]; rfl⟩

/-- Witness for C4 at a concrete record id and timestamp. -/
theorem part1_transition_witness :
    runPart1 (fun _ => none) (fun _ => true) (fun _ => Status.APPROVED) "t0".toList
        [("ANKA202401150001".toList, Status.BEING_PROCESSED)] =
      ([StoreOp.updateApp "ANKA202401150001".toList (some Status.APPROVED) "t0".toList,
        StoreOp.insertChange
          ⟨"ANKA202401150001".toList, some Status.BEING_PROCESSED, Status.APPROVED,
            "t0".toList, false⟩], none) :=
  (part1_transition "ANKA202401150001".toList "t0".toList (fun _ => Status.APPROVED) rfl).1

/-- Claim C7 (counterexample): a fault raised by the `supabase_update`
call while persisting one record's `APPROVED` result is not caught at the
item boundary — it escapes the loop of `run_part1` (the fault channel is
non-`none`) and the second record is never processed, so the backlog poll
aborts. -/
theorem part1_fault_escalation_counterexample :
    runPart1 (fun _ => some "supabase 503 after retries".toList) (fun _ => true)
        (fun _ => Status.APPROVED) "t0".toList
        [("ANKA202401150001".toList, Status.BEING_PROCESSED),
         ("ANKA202401150002".toList, Status.BEING_PROCESSED)] =
      ([], some "supabase 503 after retries".toList) := by
  decide

/-- Every branch of the per-record body leaves the fault channel empty
when the update call does not raise. -/
theorem part1Item_fault_free (insOk : Bool) (id : List Char) (old new : Status)
    (now : List Char) : (part1Item none insOk id old new now).2 = none := by
  cases new <;> cases insOk <;> rfl

/-- Claim C7 (amended): per-item faults from the check (mapped to `ERROR`
by the check state machine), from the existence lookup (swallowed by
`application_exists`) and from the insert calls (swallowed by
`supabase_insert`) are caught at the item boundary and never abort the
backlog poll; but a Record Store fault raised by a `supabase_update` call
while persisting one record's result propagates out of the loop and
terminates the run.  Formally: with no update fault, `run_part1` completes
with an empty fault channel for every record list, check oracle and
insert oracle. -/
theorem part1_no_escalation_without_update_fault (insOk : List Char → Bool)
    (check : List Char → Status) (now : List Char)
    (records : List (List Char × Status)) :
    (runPart1 (fun _ => none) insOk check now records).2 = none := by
  induction records with
  | nil => rfl
  | cons r rest ih =>
    obtain ⟨id, old⟩ := r
    simp [runPart1, part1Item_fault_free, ih]

/-! ## Theorems: discovery scanner -/

/-- Once the miss counter has reached the threshold, the per-date loop is
inert: any remaining fuel leaves the state unchanged. -/
theorem scanLoop_of_done (db : List Char → Except (List Char) (List AppRow))
    (csm : List Char → Status) (cand : Nat → List Char) (s : ScanState) (fuel : Nat)
    (h : ¬ s.misses < MAX_NOT_FOUND_CONSECUTIVE) : scanLoop db csm cand s fuel = s := by
  cases fuel with
  | zero => rfl
  | succ f => simp [scanLoop, h]

/-- Fuel splits across `scanLoop`. -/
theorem scanLoop_add (db : List Char → Except (List Char) (List AppRow))
    (csm : List Char → Status) (cand : Nat → List Char) (s : ScanState) (a b : Nat) :
    scanLoop db csm cand s (a + b) = scanLoop db csm cand (scanLoop db csm cand s a) b := by
  induction a generalizing s with
  | zero => simp [scanLoop]
  | succ n ih =>
    by_cases h : s.misses < MAX_NOT_FOUND_CONSECUTIVE
    · have e : n + 1 + b = n + b + 1 := by omega
      rw [e]
      simp only [scanLoop, h, if_true]
      exact ih _
    · rw [scanLoop_of_done _ _ _ _ _ h, scanLoop_of_done _ _ _ _ _ h,
        scanLoop_of_done _ _ _ _ _ h]

/-- Claim C2: for a city/date with zero issued codes and none present in
the store (`supabase_select` returns no rows, every check yields
`NOT_FOUND`), the per-date loop performs exactly
`MAX_NOT_FOUND_CONSECUTIVE = 8` checks — the candidates of sequences 1
through 8, in order — inserts nothing, and then stops: any further fuel
leaves the state unchanged, so the scan moves to the next date. -/
theorem scanner_miss_threshold (cand : Nat → List Char) (k : Nat) :
    scanLoop (fun _ => .ok []) (fun _ => Status.NOT_FOUND) cand initScan
        (MAX_NOT_FOUND_CONSECUTIVE + k) =
      ⟨9, 8, [cand 1, cand 2, cand 3, cand 4, cand 5, cand 6, cand 7, cand 8], [], []⟩ := by
  rw [scanLoop_add]
  have h8 : scanLoop (fun _ => .ok []) (fun _ => Status.NOT_FOUND) cand initScan
      MAX_NOT_FOUND_CONSECUTIVE =
      ⟨9, 8, [cand 1, cand 2, cand 3, cand 4, cand 5, cand 6, cand 7, cand 8], [], []⟩ := rfl
  rw [h8]
  exact scanLoop_of_done _ _ _ _ _ (by simp [MAX_NOT_FOUND_CONSECUTIVE])

/-- Claim C3: loop-body invariant — when the candidate identifier is
already present in the store, the scanner performs no check (the `checks`
trace is unchanged, whatever the check oracle would answer), inserts
nothing, resets the consecutive-miss counter to 0 (in particular it does
not increment it) and advances the sequence number. -/
theorem scanner_skip_known (db : List Char → Except (List Char) (List AppRow))
    (csm : List Char → Status) (cand : Nat → List Char) (s : ScanState)
    (h : (application_exists (db (cand s.idx))).1 = true) :
    scanStep db csm cand s = { s with idx := s.idx + 1, misses := 0 } := by
  simp [scanStep, h]

/-- Witness for C3 at a store containing the candidate of sequence 1. -/
theorem scanner_skip_known_witness :
    scanStep (fun _ => .ok [⟨"ANKA202401150001".toList, Status.BEING_PROCESSED⟩])
        (fun _ => Status.APPROVED) (fun _ => "ANKA202401150001".toList) initScan =
      { initScan with idx := 2, misses := 0 } :=
  scanner_skip_known _ _ _ _ rfl

/-- Claim C10: when the existence lookup's `supabase_select` raises,
`application_exists` swallows the failure and reports `(false, none)`, so
the scanner treats the identifier as unknown: it submits it to the check
and, on a hit, inserts the `applications` and `changes` rows — regardless
of what the store actually contains, so the inserted record may already
exist there. -/
theorem scanner_lookup_fault_swallowed (db : List Char → Except (List Char) (List AppRow))
    (csm : List Char → Status) (cand : Nat → List Char) (s : ScanState) (e : List Char)
    (hdb : db (cand s.idx) = .error e) (hcsm : csm (cand s.idx) = Status.APPROVED) :
    application_exists (db (cand s.idx)) = (false, none) ∧
    scanStep db csm cand s =
      { idx := s.idx + 1, misses := 0,
        checks := s.checks ++ [cand s.idx],
        appInserts := s.appInserts ++ [(cand s.idx, Status.APPROVED)],
        changeInserts := s.changeInserts ++ [(cand s.idx, Status.APPROVED)] } := by
  have h1 : application_exists (db (cand s.idx)) = (false, none) := by
    rw [hdb]
    rfl
  refine ⟨h1, ?_⟩
  simp [scanStep, h1, hcsm]

/-- Witness for C10 at a lookup that always raises and a check that
answers `APPROVED`. -/
theorem scanner_lookup_fault_swallowed_witness :
    application_exists (Except.error "boom".toList) = (false, none) ∧
    scanStep (fun _ => .error "boom".toList) (fun _ => Status.APPROVED)
        (fun i => padNum 4 i) initScan =
      ⟨2, 0, [padNum 4 1], [(padNum 4 1, Status.APPROVED)],
        [(padNum 4 1, Status.APPROVED)]⟩ := by
  have h := scanner_lookup_fault_swallowed (fun _ => .error "boom".toList)
    (fun _ => Status.APPROVED) (fun i => padNum 4 i) initScan "boom".toList rfl rfl
  exact ⟨h.1, h.2⟩

/-! ## Theorems: identifier codec -/

/-- Zero-padded formatting always yields exactly `w` characters. -/
theorem padNum_length (w : Nat) : ∀ n, (padNum w n).length = w := by
  induction w with
  | zero => intro n; rfl
  | succ w ih => intro n; simp [padNum, ih]

/-- Reading back the digit character of `n` gives `n % 10`. -/
theorem charVal_digitChar (n : Nat) : charVal (digitChar n) = n % 10 := by
  have h : ∀ k, k < 10 → charVal (Char.ofNat (48 + k)) = k := by decide
  simpa [digitChar] using h (n % 10) (Nat.mod_lt _ (by norm_num))

/-- Appending one digit multiplies the value by ten and adds the digit. -/
theorem digitsVal_concat (cs : List Char) (c : Char) :
    digitsVal (cs ++ [c]) = digitsVal cs * 10 + charVal c := by
  simp [digitsVal, List.foldl_append]

/-- Reading back a zero-padded number recovers it, for numbers that fit
the width. -/
theorem digitsVal_padNum (w : Nat) : ∀ n, n < 10 ^ w → digitsVal (padNum w n) = n := by
  induction w with
  | zero =>
    intro n h
    simp [padNum, digitsVal]
    omega
  | succ w ih =>
    intro n h
    have hd : n / 10 < 10 ^ w := by
      rw [Nat.div_lt_iff_lt_mul (by norm_num)]
      calc n < 10 ^ (w + 1) := h
        _ = 10 ^ w * 10 := by ring
    rw [padNum, digitsVal_concat, ih _ hd, charVal_digitChar]
    omega

/-- Claim C8: the codec round-trips — encoding a known 4-letter city
prefix, a valid date and a sequence number in 1..9999, then decoding by
the source's slices (`[:4]` city, `[4:12]` date, `[12:16]` sequence)
recovers the original triple (and the date field is exactly the
`YYYYMMDD` rendering of the date). -/
theorem codec_roundtrip (city : List Char) (y m d seq : Nat)
    (hcity : city = "ANKA".toList ∨ city = "ISTA".toList)
    (hy1 : 1 ≤ y) (hy2 : y ≤ 9999) (hm1 : 1 ≤ m) (hm2 : m ≤ 12)
    (hd1 : 1 ≤ d) (hd2 : d ≤ 31) (hs1 : 1 ≤ seq) (hs2 : seq ≤ 9999) :
    decodeCity (appNumber city y m d seq) = city ∧
    decodeYear (appNumber city y m d seq) = y ∧
    decodeMonth (appNumber city y m d seq) = m ∧
    decodeDay (appNumber city y m d seq) = d ∧
    decodeSeq (appNumber city y m d seq) = seq ∧
    decodeDateField (appNumber city y m d seq) =
      padNum 4 y ++ padNum 2 m ++ padNum 2 d := by
  have hlen : city.length = 4 := by
    rcases hcity with h | h <;> rw [h] <;> rfl
  have e1 : appNumber city y m d seq =
      city ++ (padNum 4 y ++ (padNum 2 m ++ (padNum 2 d ++ padNum 4 seq))) := by
    simp [appNumber, List.append_assoc]
  have e2 : appNumber city y m d seq =
      (city ++ padNum 4 y) ++ (padNum 2 m ++ (padNum 2 d ++ padNum 4 seq)) := by
    simp [appNumber, List.append_assoc]
  have e3 : appNumber city y m d seq =
      ((city ++ padNum 4 y) ++ padNum 2 m) ++ (padNum 2 d ++ padNum 4 seq) := by
    simp [appNumber, List.append_assoc]
  have e4 : appNumber city y m d seq =
      (((city ++ padNum 4 y) ++ padNum 2 m) ++ padNum 2 d) ++ padNum 4 seq := by
    simp [appNumber, List.append_assoc]
  have e5 : appNumber city y m d seq =
      city ++ ((padNum 4 y ++ padNum 2 m ++ padNum 2 d) ++ padNum 4 seq) := by
    simp [appNumber, List.append_assoc]
  have l2 : (city ++ padNum 4 y).length = 8 := by
    simp [hlen, padNum_length]
  have l3 : ((city ++ padNum 4 y) ++ padNum 2 m).length = 10 := by
    simp [hlen, padNum_length]
  have l4 : (((city ++ padNum 4 y) ++ padNum 2 m) ++ padNum 2 d).length = 12 := by
    simp [hlen, padNum_length]
  have l5 : (padNum 4 y ++ padNum 2 m ++ padNum 2 d).length = 8 := by
    simp [padNum_length]
  refine ⟨?_, ?_, ?_, ?_, ?_, ?_⟩
  · rw [decodeCity, e1, List.take_left' hlen]
  · rw [decodeYear, e1, List.drop_left' hlen, List.take_left' (padNum_length 4 y)]
    exact digitsVal_padNum 4 y (by norm_num; omega)
  · rw [decodeMonth, e2, List.drop_left' l2, List.take_left' (padNum_length 2 m)]
    exact digitsVal_padNum 2 m (by norm_num; omega)
  · rw [decodeDay, e3, List.drop_left' l3, List.take_left' (padNum_length 2 d)]
    exact digitsVal_padNum 2 d (by norm_num; omega)
  · rw [decodeSeq, e4, List.drop_left' l4,
      List.take_of_length_le (by rw [padNum_length])]
    exact digitsVal_padNum 4 seq (by norm_num; omega)
  · rw [decodeDateField, e5, List.drop_left' hlen, List.take_left' l5]

/-- Witness for C8 at the triple (ANKA, 2024-05-01, 7). -/
theorem codec_roundtrip_witness :
    decodeCity (appNumber "ANKA".toList 2024 5 1 7) = "ANKA".toList ∧
    decodeYear (appNumber "ANKA".toList 2024 5 1 7) = 2024 ∧
    decodeMonth (appNumber "ANKA".toList 2024 5 1 7) = 5 ∧
    decodeDay (appNumber "ANKA".toList 2024 5 1 7) = 1 ∧
    decodeSeq (appNumber "ANKA".toList 2024 5 1 7) = 7 := by
  have h := codec_roundtrip "ANKA".toList 2024 5 1 7 (Or.inl rfl) (by norm_num)
    (by norm_num) (by norm_num) (by norm_num) (by norm_num) (by norm_num)
    (by norm_num) (by norm_num)
  exact ⟨h.1, h.2.1, h.2.2.1, h.2.2.2.1, h.2.2.2.2.1⟩

end CzechVisa
